import Mathlib

/-!
Verification of the shared-LED arbitration core in `liblight/lights.c`
(android_device_zuk_z2pro).

The C file drives one tri-color LED shared by three logical channels
(attention, notification, battery) plus two single-channel outputs
(LCD backlight, buttons).  We embed the code shallowly:

* each `write_int(path, value)` call is recorded as an element of a
  `Trace` (a list of `Sink × Nat` pairs, in program order);
* the physical output is a map `Sink → Nat`, obtained by folding a
  trace over an initial output state;
* the three channel slots `g_attention`, `g_notification`, `g_battery`
  form the `Store` structure, and each facade operation is a pure
  function from the old store (and its `state` argument) to the new
  store, the emitted write trace and the returned status code;
* `write_int` return values and its once-only warning log are modelled
  by `WriteOutcome` / `write_int_ret` / `write_int_log`, since the C
  control flow of the callers never inspects the write results.
-/

namespace Lights

/-- The eight write-only actuator sinks of the driver, one per sysfs
path constant in the source (`RED_LED_FILE` .. `BUTTONS_FILE`). -/
inductive Sink where
  | redLed
  | greenLed
  | blueLed
  | redBlink
  | greenBlink
  | blueBlink
  | lcd
  | buttons
  deriving DecidableEq, Repr

/-- Embedding of `struct light_state_t` (the fields the source reads).
`color` is the packed 32-bit RGB word; millisecond and mode fields are
C ints. -/
structure LightState where
  color : Nat
  flashMode : Int
  flashOnMS : Int
  flashOffMS : Int
  brightnessMode : Int
  deriving DecidableEq, Repr

/-- Embedding of the three channel-slot globals `g_attention`,
`g_notification`, `g_battery` (lights.c lines 39-41). -/
structure Store where
  g_attention : LightState
  g_notification : LightState
  g_battery : LightState
  deriving DecidableEq, Repr

/-- A trace of attempted `write_int` calls: sink and value, in program
order. -/
abbrev Trace := List (Sink × Nat)

/-- Embedding of `is_lit` (lights.c lines 99-103):
`return state->color & 0x00ffffff;`.  The C caller tests the returned
int for nonzero. -/
def is_lit (state : LightState) : Nat :=
  state.color &&& 0xffffff

/-- Embedding of `rgb_to_brightness` (lights.c lines 105-112). -/
def rgb_to_brightness (state : LightState) : Nat :=
  let color := state.color &&& 0x00ffffff
  ((77 * ((color >>> 16) &&& 0xff))
      + (150 * ((color >>> 8) &&& 0xff))
      + (29 * (color &&& 0xff))) >>> 8

/-- Embedding of `set_battery_light_locked` (lights.c lines 114-132):
unconditionally writes the three 8-bit components of `state->color` to
the three solid LED files and returns 0.  The `dev` argument is unused
by the C body, so it is omitted here. -/
def set_battery_light_locked (state : LightState) : Int × Trace :=
  let red := (state.color >>> 16) &&& 0xFF
  let green := (state.color >>> 8) &&& 0xFF
  let blue := state.color &&& 0xFF
  (0, [(Sink.redLed, red), (Sink.greenLed, green), (Sink.blueLed, blue)])

/-- Embedding of `set_speaker_light_locked` (lights.c lines 134-196).
`devNull` is true when the C `dev` pointer is NULL (early return -1
with no writes); `state = none` is the NULL-state clear call.  In the
non-clear path, `blink` is 1 exactly when `state->flashOnMS != 1`; in
blink mode the three solid files are written 0 and each blink file is
written only when its color component is nonzero. -/
def set_speaker_light_locked (devNull : Bool) (state : Option LightState) :
    Int × Trace :=
  if devNull then (-1, [])
  else
    match state with
    | none =>
        (0, [(Sink.redLed, 0), (Sink.greenLed, 0), (Sink.blueLed, 0),
             (Sink.redBlink, 0), (Sink.greenBlink, 0), (Sink.blueBlink, 0)])
    | some st =>
        let blink : Nat := if st.flashOnMS ≠ 1 then 1 else 0
        let red := (st.color >>> 16) &&& 0xFF
        let green := (st.color >>> 8) &&& 0xFF
        let blue := st.color &&& 0xFF
        if blink ≠ 0 then
          (0, [(Sink.redLed, 0), (Sink.greenLed, 0), (Sink.blueLed, 0)]
              ++ (if red ≠ 0 then [(Sink.redBlink, blink)] else [])
              ++ (if green ≠ 0 then [(Sink.greenBlink, blink)] else [])
              ++ (if blue ≠ 0 then [(Sink.blueBlink, blink)] else []))
        else
          (0, [(Sink.redLed, red), (Sink.greenLed, green), (Sink.blueLed, blue)])

/-- Embedding of `handle_speaker_light_locked` (lights.c lines 198-209):
clear via `set_speaker_light_locked(dev, NULL)`, then render the winner
chosen by fixed priority (attention lit, else notification lit, else
battery unconditionally).  Returns the concatenated write trace. -/
def handle_speaker_light_locked (devNull : Bool) (st : Store) : Trace :=
  (set_speaker_light_locked devNull none).2 ++
    (if is_lit st.g_attention ≠ 0 then
      (set_speaker_light_locked devNull (some st.g_attention)).2
    else if is_lit st.g_notification ≠ 0 then
      (set_speaker_light_locked devNull (some st.g_notification)).2
    else
      (set_battery_light_locked st.g_battery).2)

/-- Embedding of `set_light_attention` (lights.c lines 243-255): store
the state in the attention slot, re-run arbitration, return 0.  Result
is (new store, write trace, return value). -/
def set_light_attention (devNull : Bool) (st : Store) (state : LightState) :
    Store × Trace × Int :=
  let st1 := { st with g_attention := state }
  (st1, handle_speaker_light_locked devNull st1, 0)

/-- Embedding of `set_light_notifications` (lights.c lines 257-269). -/
def set_light_notifications (devNull : Bool) (st : Store) (state : LightState) :
    Store × Trace × Int :=
  let st1 := { st with g_notification := state }
  (st1, handle_speaker_light_locked devNull st1, 0)

/-- Embedding of `set_light_battery` (lights.c lines 271-283). -/
def set_light_battery (devNull : Bool) (st : Store) (state : LightState) :
    Store × Trace × Int :=
  let st1 := { st with g_battery := state }
  (st1, handle_speaker_light_locked devNull st1, 0)

/-- Outcome of one underlying `write_int` attempt at a sink: the open
and write syscalls both succeed, the open fails with `errno`, or the
open succeeds but the write fails with `errno`. -/
inductive WriteOutcome where
  | ok
  | openFail (errno : Nat)
  | writeFail (errno : Nat)
  deriving DecidableEq, Repr

/-- Return value of `write_int` (lights.c lines 77-97): 0 on success,
`-errno` when the open fails, `-errno` when the write returns -1. -/
def write_int_ret : WriteOutcome → Int
  | WriteOutcome.ok => 0
  | WriteOutcome.openFail e => -(e : Int)
  | WriteOutcome.writeFail e => -(e : Int)

/-- Warning-log behaviour of `write_int` (lights.c lines 90-95): the
single function-static flag `already_warned` gates the ALOGE call.
Only a failed open is logged, and only if the flag is still 0; the
flag is then set.  Result: (new flag, whether a log line was emitted
now). -/
def write_int_log (warned : Bool) : WriteOutcome → Bool × Bool
  | WriteOutcome.ok => (warned, false)
  | WriteOutcome.writeFail _ => (warned, false)
  | WriteOutcome.openFail _ => if warned then (true, false) else (true, true)

/-- Run a sequence of `write_int` attempts through the shared
`already_warned` flag, collecting the sinks for which a log line was
emitted, in order. -/
def runWriteAttempts (warned : Bool) : List (Sink × WriteOutcome) → List Sink
  | [] => []
  | (s, o) :: rest =>
      let r := write_int_log warned o
      (if r.2 then [s] else []) ++ runWriteAttempts r.1 rest

/-- Embedding of `set_light_backlight` (lights.c lines 211-225): one
`write_int(LCD_FILE, rgb_to_brightness(state))` under the lock, whose
return value is returned to the caller.  `env` gives each sink write
attempt its outcome. -/
def set_light_backlight (state : LightState) (env : Sink → WriteOutcome) :
    Trace × Int :=
  let brightness := rgb_to_brightness state
  ([(Sink.lcd, brightness)], write_int_ret (env Sink.lcd))

/-- Embedding of `set_light_buttons` (lights.c lines 227-241). -/
def set_light_buttons (state : LightState) (env : Sink → WriteOutcome) :
    Trace × Int :=
  let brightness := rgb_to_brightness state
  ([(Sink.buttons, brightness)], write_int_ret (env Sink.buttons))

/-- The physical output: current value at each of the eight sinks. -/
abbrev Phys := Sink → Nat

/-- Apply one write to the physical output. -/
def applyWrite (p : Phys) (w : Sink × Nat) : Phys :=
  Function.update p w.1 w.2

/-- Apply a whole trace, in program order. -/
def applyTrace (t : Trace) (p : Phys) : Phys :=
  t.foldl applyWrite p

/-- The five facade operations of the driver, as selected in
`open_lights` (lights.c lines 302-334). -/
inductive FacadeOp where
  | backlight
  | buttons
  | notifications
  | attention
  | battery
  deriving DecidableEq, Repr

/-- The name of the mutex instance each facade operation acquires.
Each of the five set functions calls `pthread_mutex_lock` on the same
file-static `g_lock` (lights.c lines 38, 218, 234, 247, 261, 275). -/
def acquiredLock : FacadeOp → String
  | FacadeOp.backlight => "g_lock"
  | FacadeOp.buttons => "g_lock"
  | FacadeOp.notifications => "g_lock"
  | FacadeOp.attention => "g_lock"
  | FacadeOp.battery => "g_lock"

/-! ### Spec-side description of the arbitration output

The definitions below are written from the words of the spec (sections
4.4 and 8), not from the code; the refinement theorems compare the
trace semantics of the code against them. -/

/-- A rendering of the six color sinks: solid value and blink value
per component. -/
structure ColorRender where
  redSolid : Nat
  greenSolid : Nat
  blueSolid : Nat
  redBlink : Nat
  greenBlink : Nat
  blueBlink : Nat
  deriving DecidableEq, Repr

/-- Spec: solid render writes the three 8-bit components to the solid
sinks, blink sinks stay cleared at 0. -/
def solidRender (w : LightState) : ColorRender :=
  { redSolid := (w.color >>> 16) &&& 0xFF
    greenSolid := (w.color >>> 8) &&& 0xFF
    blueSolid := w.color &&& 0xFF
    redBlink := 0
    greenBlink := 0
    blueBlink := 0 }

/-- Spec: blink render leaves all solid outputs at 0 and enables the
blink sink (value 1) exactly for the nonzero 8-bit components. -/
def blinkRender (w : LightState) : ColorRender :=
  { redSolid := 0
    greenSolid := 0
    blueSolid := 0
    redBlink := if (w.color >>> 16) &&& 0xFF ≠ 0 then 1 else 0
    greenBlink := if (w.color >>> 8) &&& 0xFF ≠ 0 then 1 else 0
    blueBlink := if w.color &&& 0xFF ≠ 0 then 1 else 0 }

/-- Spec: an Attention or Notification winner renders solid when its
`flashOnMS` is exactly 1, and blink otherwise. -/
def channelRender (w : LightState) : ColorRender :=
  if w.flashOnMS = 1 then solidRender w else blinkRender w

/-- Spec (section 4.4 step 2 and 3): winner by fixed priority —
Attention if lit, else Notification if lit, else Battery, always
rendered solid. -/
def spec_arbitrate (st : Store) : ColorRender :=
  if is_lit st.g_attention ≠ 0 then channelRender st.g_attention
  else if is_lit st.g_notification ≠ 0 then channelRender st.g_notification
  else solidRender st.g_battery

/-- Overwrite the six color sinks of a physical output with a render,
leaving the lcd and buttons sinks untouched. -/
def setColor (p : Phys) (c : ColorRender) : Phys := fun k =>
  match k with
  | Sink.redLed => c.redSolid
  | Sink.greenLed => c.greenSolid
  | Sink.blueLed => c.blueSolid
  | Sink.redBlink => c.redBlink
  | Sink.greenBlink => c.greenBlink
  | Sink.blueBlink => c.blueBlink
  | Sink.lcd => p Sink.lcd
  | Sink.buttons => p Sink.buttons

/-! ### Helper lemmas about trace application -/

/-- Last value written to a sink by a trace, if any. -/
def lastVal : Trace → Sink → Option Nat
  | [], _ => none
  | (a, v) :: t, s =>
      match lastVal t s with
      | some w => some w
      | none => if s = a then some v else none

theorem applyTrace_append (t1 t2 : Trace) (p : Phys) :
    applyTrace (t1 ++ t2) p = applyTrace t2 (applyTrace t1 p) := by
  simp [applyTrace, List.foldl_append]

theorem applyTrace_eq_lastVal (t : Trace) (p : Phys) (s : Sink) :
    applyTrace t p s = (lastVal t s).getD (p s) := by
  induction t generalizing p with
  | nil => simp [applyTrace, lastVal]
  | cons w t ih =>
      rcases w with ⟨a, v⟩
      show applyTrace t (applyWrite p (a, v)) s = _
      rw [ih]
      rcases h : lastVal t s with _ | w
      · simp [lastVal, h, applyWrite, Function.update]
        by_cases hs : s = a <;> simp [hs]
      · simp [lastVal, h]

/-- Applying the same trace twice gives the same physical output as
applying it once: every sink either receives its last written value in
both runs or keeps its value from before the run. -/
theorem applyTrace_idem (t : Trace) (p : Phys) :
    applyTrace t (applyTrace t p) = applyTrace t p := by
  funext s
  rw [applyTrace_eq_lastVal, applyTrace_eq_lastVal]
  rcases h : lastVal t s with _ | w
  · simp [applyTrace_eq_lastVal, h]
  · simp

/-- The all-zero render produced by the clear step. -/
def clearRender : ColorRender :=
  { redSolid := 0, greenSolid := 0, blueSolid := 0
    redBlink := 0, greenBlink := 0, blueBlink := 0 }

theorem apply_clear (p : Phys) :
    applyTrace (set_speaker_light_locked false none).2 p = setColor p clearRender := by
  funext k
  cases k <;>
    simp [set_speaker_light_locked, setColor, clearRender, applyTrace, applyWrite,
      Function.update]

theorem apply_battery (b : LightState) (p : Phys) :
    applyTrace (set_battery_light_locked b).2 (setColor p clearRender) =
      setColor p (solidRender b) := by
  funext k
  cases k <;>
    simp [set_battery_light_locked, setColor, clearRender, solidRender, applyTrace,
      applyWrite, Function.update]

theorem apply_speaker_some (w : LightState) (p : Phys) :
    applyTrace (set_speaker_light_locked false (some w)).2 (setColor p clearRender) =
      setColor p (channelRender w) := by
  by_cases hf : w.flashOnMS = 1
  · funext k
    cases k <;>
      simp [set_speaker_light_locked, hf, channelRender, solidRender, setColor,
        clearRender, applyTrace, applyWrite, Function.update]
  · by_cases hr : (w.color >>> 16) &&& 0xFF ≠ 0 <;>
      by_cases hg : (w.color >>> 8) &&& 0xFF ≠ 0 <;>
        by_cases hb : w.color &&& 0xFF ≠ 0 <;>
          · funext k
            cases k <;>
              simp [set_speaker_light_locked, hf, hr, hg, hb, channelRender,
                blinkRender, setColor, clearRender, applyTrace, applyWrite,
                Function.update]

/-- The trace emitted by one arbitration run (with a valid device),
applied to any prior physical output, yields exactly the spec-side
arbitration render on the six color sinks and leaves lcd and buttons
untouched. -/
theorem handle_apply (st : Store) (p : Phys) :
    applyTrace (handle_speaker_light_locked false st) p =
      setColor p (spec_arbitrate st) := by
  unfold handle_speaker_light_locked spec_arbitrate
  rw [applyTrace_append, apply_clear]
  by_cases ha : is_lit st.g_attention ≠ 0
  · rw [if_pos ha, if_pos ha]
    exact apply_speaker_some st.g_attention p
  · rw [if_neg ha, if_neg ha]
    by_cases hn : is_lit st.g_notification ≠ 0
    · rw [if_pos hn, if_pos hn]
      exact apply_speaker_some st.g_notification p
    · rw [if_neg hn, if_neg hn]
      exact apply_battery st.g_battery p

/-! ### Claim theorems -/

/-- C1: after every completed setState call on an Attention,
Notification, or Battery channel (valid device), the physical
color-LED output equals the render of the winner chosen by fixed
priority over the Channel State Store (Attention if its low 24 color
bits are nonzero, else Notification if lit, else Battery); the
backlight and buttons operations mutate only their own sink, never the
six color outputs. -/
theorem C1_arbitration_invariant (st : Store) (s : LightState) (p : Phys)
    (bstate : LightState) (env : Sink → WriteOutcome) :
    applyTrace (set_light_attention false st s).2.1 p =
      setColor p (spec_arbitrate (set_light_attention false st s).1) ∧
    applyTrace (set_light_notifications false st s).2.1 p =
      setColor p (spec_arbitrate (set_light_notifications false st s).1) ∧
    applyTrace (set_light_battery false st s).2.1 p =
      setColor p (spec_arbitrate (set_light_battery false st s).1) ∧
    applyTrace (set_light_backlight bstate env).1 p =
      Function.update p Sink.lcd (rgb_to_brightness bstate) ∧
    applyTrace (set_light_buttons bstate env).1 p =
      Function.update p Sink.buttons (rgb_to_brightness bstate) :=
  ⟨handle_apply _ p, handle_apply _ p, handle_apply _ p, rfl, rfl⟩

/-- C2: a winning Attention or Notification state renders solid when
its flashOnMS is exactly 1 (components to the solid sinks, blink sinks
left at 0 from the clear) and blink otherwise (solids stay 0, blink
sink enabled with value 1 exactly for the nonzero components); a zero
component never receives a blink-file write at all. -/
theorem C2_blink_threshold (w : LightState) (p : Phys) :
    applyTrace (set_speaker_light_locked false (some w)).2 (setColor p clearRender) =
      setColor p (channelRender w) ∧
    (set_speaker_light_locked false (some w)).2.filter
        (fun e => e.1 == Sink.redBlink) =
      (if w.flashOnMS = 1 then []
       else if (w.color >>> 16) &&& 0xFF ≠ 0 then [(Sink.redBlink, 1)] else []) ∧
    (set_speaker_light_locked false (some w)).2.filter
        (fun e => e.1 == Sink.greenBlink) =
      (if w.flashOnMS = 1 then []
       else if (w.color >>> 8) &&& 0xFF ≠ 0 then [(Sink.greenBlink, 1)] else []) ∧
    (set_speaker_light_locked false (some w)).2.filter
        (fun e => e.1 == Sink.blueBlink) =
      (if w.flashOnMS = 1 then []
       else if w.color &&& 0xFF ≠ 0 then [(Sink.blueBlink, 1)] else []) := by
  refine ⟨apply_speaker_some w p, ?_, ?_, ?_⟩ <;>
    · by_cases hf : w.flashOnMS = 1 <;>
        by_cases hr : (w.color >>> 16) &&& 0xFF ≠ 0 <;>
          by_cases hg : (w.color >>> 8) &&& 0xFF ≠ 0 <;>
            by_cases hb : w.color &&& 0xFF ≠ 0 <;>
              simp [set_speaker_light_locked, hf, hr, hg, hb]

/-- C3: when neither Attention nor Notification is lit, an arbitration
run (valid device) puts the Battery solid render on the physical
output — even when Battery color is zero — and the Battery path never
writes any blink sink, regardless of Battery flashOnMS. -/
theorem C3_battery_fallback (st : Store) (p : Phys)
    (ha : is_lit st.g_attention = 0) (hn : is_lit st.g_notification = 0) :
    applyTrace (handle_speaker_light_locked false st) p =
      setColor p (solidRender st.g_battery) ∧
    ∀ b : LightState,
      (set_battery_light_locked b).2.filter
          (fun e => e.1 == Sink.redBlink || e.1 == Sink.greenBlink
            || e.1 == Sink.blueBlink) = [] := by
  constructor
  · rw [handle_apply st p]
    unfold spec_arbitrate
    rw [if_neg (by simp [ha]), if_neg (by simp [hn])]
  · intro b
    simp [set_battery_light_locked]

/-- Witness for C3: the spec scenario Attention off, Notification off,
Battery color 0x112233 produces the Battery solid render. -/
theorem C3_battery_fallback_witness :
    applyTrace
        (handle_speaker_light_locked false
          { g_attention := ⟨0, 0, 0, 0, 0⟩
            g_notification := ⟨0, 0, 0, 0, 0⟩
            g_battery := ⟨0x112233, 0, 500, 500, 0⟩ })
        (fun _ => 5) =
      setColor (fun _ => 5) (solidRender ⟨0x112233, 0, 500, 500, 0⟩) :=
  (C3_battery_fallback _ _ (by decide) (by decide)).1

/-- Bounding lemma for the brightness formula. -/
theorem brightness_formula_le (r g b : Nat) (hr : r ≤ 255) (hg : g ≤ 255)
    (hb : b ≤ 255) : (77 * r + 150 * g + 29 * b) >>> 8 ≤ 255 := by
  rw [Nat.shiftRight_eq_div_pow]
  have h : 77 * r + 150 * g + 29 * b ≤ 65280 := by omega
  omega

/-- C4: the Brightness Converter returns (77R + 150G + 29B) >> 8 over
the components of the low 24 bits of color, the result is at most 255,
and it depends only on the low 24 bits of color. -/
theorem C4_rgb_to_brightness_spec :
    (∀ s : LightState,
      rgb_to_brightness s =
        (77 * (((s.color &&& 0xffffff) >>> 16) &&& 0xff)
          + 150 * (((s.color &&& 0xffffff) >>> 8) &&& 0xff)
          + 29 * ((s.color &&& 0xffffff) &&& 0xff)) >>> 8) ∧
    (∀ s : LightState, rgb_to_brightness s ≤ 255) ∧
    (∀ s t : LightState, s.color &&& 0xffffff = t.color &&& 0xffffff →
      rgb_to_brightness s = rgb_to_brightness t) := by
  refine ⟨fun s => rfl, fun s => ?_, fun s t h => ?_⟩
  · exact brightness_formula_le _ _ _ Nat.and_le_right Nat.and_le_right
      Nat.and_le_right
  · unfold rgb_to_brightness
    rw [h]

/-- Witness for C4: two states sharing the low 24 color bits (one with
alpha bits set, different flash fields) get the same brightness. -/
theorem C4_rgb_to_brightness_witness :
    rgb_to_brightness ⟨0x11223344, 0, 500, 250, 0⟩ =
      rgb_to_brightness ⟨0xFF223344, 1, 1, 0, 2⟩ :=
  C4_rgb_to_brightness_spec.2.2 _ _ (by decide)

/-- C5: calling setState twice in succession with the identical
LightState on the same color channel slot leaves the Channel State
Store and the final physical output the same as calling it once. -/
theorem C5_setState_idempotent (d : Bool) (st : Store) (s : LightState)
    (p : Phys) :
    ((set_light_attention d (set_light_attention d st s).1 s).1 =
        (set_light_attention d st s).1 ∧
      applyTrace (set_light_attention d (set_light_attention d st s).1 s).2.1
          (applyTrace (set_light_attention d st s).2.1 p) =
        applyTrace (set_light_attention d st s).2.1 p) ∧
    ((set_light_notifications d (set_light_notifications d st s).1 s).1 =
        (set_light_notifications d st s).1 ∧
      applyTrace
          (set_light_notifications d (set_light_notifications d st s).1 s).2.1
          (applyTrace (set_light_notifications d st s).2.1 p) =
        applyTrace (set_light_notifications d st s).2.1 p) ∧
    ((set_light_battery d (set_light_battery d st s).1 s).1 =
        (set_light_battery d st s).1 ∧
      applyTrace (set_light_battery d (set_light_battery d st s).1 s).2.1
          (applyTrace (set_light_battery d st s).2.1 p) =
        applyTrace (set_light_battery d st s).2.1 p) :=
  ⟨⟨rfl, applyTrace_idem _ p⟩, ⟨rfl, applyTrace_idem _ p⟩,
    ⟨rfl, applyTrace_idem _ p⟩⟩

/-- C6 counterexample: the backlight and buttons paths lock the very
same mutex instance (`g_lock`) as the color-channel store-and-apply
paths, so the claimed separate, independent lock does not exist. -/
theorem C6_single_lock_counterexample :
    acquiredLock FacadeOp.backlight = acquiredLock FacadeOp.attention ∧
    acquiredLock FacadeOp.buttons = acquiredLock FacadeOp.notifications ∧
    acquiredLock FacadeOp.backlight = acquiredLock FacadeOp.battery :=
  ⟨rfl, rfl, rfl⟩

/-- C6 amended: all five facade operations acquire one and the same
lock instance (`g_lock`); there is a single critical section, and a
backlight or buttons call does contend with color-channel
arbitration. -/
theorem C6_single_lock (op1 op2 : FacadeOp) :
    acquiredLock op1 = acquiredLock op2 ∧ acquiredLock op1 = "g_lock" := by
  cases op1 <;> cases op2 <;> exact ⟨rfl, rfl⟩

/-- C7: every Attention, Notification, or Battery setState call
returns 0 to the caller for every device validity and every input,
even though an individual failed write has a negative write_int
result — write errors are never escalated. -/
theorem C7_setState_returns_success (d : Bool) (st : Store) (s : LightState) :
    (set_light_attention d st s).2.2 = 0 ∧
    (set_light_notifications d st s).2.2 = 0 ∧
    (set_light_battery d st s).2.2 = 0 ∧
    (∀ e : Nat, 0 < e → write_int_ret (WriteOutcome.openFail e) < 0 ∧
      write_int_ret (WriteOutcome.writeFail e) < 0) := by
  refine ⟨rfl, rfl, rfl, fun e he => ?_⟩
  simp [write_int_ret]
  omega

/-- Witness for C7: a concrete attention call returns 0 while a failed
write with errno 13 has a negative write_int result. -/
theorem C7_setState_returns_success_witness :
    (set_light_attention false
        { g_attention := ⟨0, 0, 0, 0, 0⟩
          g_notification := ⟨0, 0, 0, 0, 0⟩
          g_battery := ⟨0, 0, 0, 0, 0⟩ } ⟨0xFF0000, 0, 500, 500, 0⟩).2.2 = 0 ∧
    write_int_ret (WriteOutcome.openFail 13) < 0 := by
  have h := C7_setState_returns_success false
    { g_attention := ⟨0, 0, 0, 0, 0⟩
      g_notification := ⟨0, 0, 0, 0, 0⟩
      g_battery := ⟨0, 0, 0, 0, 0⟩ } ⟨0xFF0000, 0, 500, 500, 0⟩
  exact ⟨h.1, (h.2.2.2 13 (by decide)).1⟩

/-- C8 counterexample: the warning flag `already_warned` is one
function-static variable shared by every sink, so after the first
logged open failure (red LED file), an open failure on a different
sink (green LED file) produces no log entry of its own. -/
theorem C8_per_sink_log_counterexample :
    runWriteAttempts false
        [(Sink.redLed, WriteOutcome.openFail 13),
         (Sink.greenLed, WriteOutcome.openFail 13)] = [Sink.redLed] ∧
    Sink.greenLed ∉
      runWriteAttempts false
        [(Sink.redLed, WriteOutcome.openFail 13),
         (Sink.greenLed, WriteOutcome.openFail 13)] := by
  decide

/-- Once the shared warning flag is set, no later attempt logs. -/
theorem runWriteAttempts_warned (l : List (Sink × WriteOutcome)) :
    runWriteAttempts true l = [] := by
  induction l with
  | nil => rfl
  | cons x rest ih =>
      rcases x with ⟨s, o⟩
      cases o <;> simpa [runWriteAttempts, write_int_log] using ih

/-- C8 amended: over any sequence of write attempts, at most one error
log entry is produced in total, across all sinks together (only a
failed open logs, and only while the single shared flag is unset). -/
theorem C8_log_at_most_once_globally (l : List (Sink × WriteOutcome)) :
    (runWriteAttempts false l).length ≤ 1 := by
  induction l with
  | nil => simp [runWriteAttempts]
  | cons x rest ih =>
      rcases x with ⟨s, o⟩
      cases o <;>
        simp [runWriteAttempts, write_int_log, runWriteAttempts_warned, ih]

/-- C9: with a NULL device handle, the clear call and any winner
render inside set_speaker_light_locked are skipped (return -1, no
writes), so an arbitration run emits writes only when it falls through
to the Battery branch, whose solid writes ignore the device; the store
update and the 0 return still happen for every device validity. -/
theorem C9_null_device (st : Store) (s : LightState) (d : Bool) :
    set_speaker_light_locked true none = (-1, []) ∧
    (∀ w : LightState, set_speaker_light_locked true (some w) = (-1, [])) ∧
    handle_speaker_light_locked true st =
      (if is_lit st.g_attention ≠ 0 then []
       else if is_lit st.g_notification ≠ 0 then []
       else (set_battery_light_locked st.g_battery).2) ∧
    (set_battery_light_locked st.g_battery).2 =
      [(Sink.redLed, (st.g_battery.color >>> 16) &&& 0xFF),
       (Sink.greenLed, (st.g_battery.color >>> 8) &&& 0xFF),
       (Sink.blueLed, st.g_battery.color &&& 0xFF)] ∧
    (set_light_attention d st s).1 = { st with g_attention := s } ∧
    (set_light_attention d st s).2.2 = 0 ∧
    (set_light_notifications d st s).1 = { st with g_notification := s } ∧
    (set_light_notifications d st s).2.2 = 0 ∧
    (set_light_battery d st s).1 = { st with g_battery := s } ∧
    (set_light_battery d st s).2.2 = 0 := by
  refine ⟨rfl, fun w => rfl, ?_, rfl, rfl, rfl, rfl, rfl, rfl, rfl⟩
  by_cases ha : is_lit st.g_attention ≠ 0 <;>
    by_cases hn : is_lit st.g_notification ≠ 0 <;>
      simp [handle_speaker_light_locked, set_speaker_light_locked, ha, hn]

/-- C10: setBacklight and setButtons return the underlying write
result to the caller — 0 when the write succeeds, the negative errno
when opening or writing the sink fails. -/
theorem C10_backlight_buttons_propagate (state : LightState)
    (env : Sink → WriteOutcome) :
    (env Sink.lcd = WriteOutcome.ok → (set_light_backlight state env).2 = 0) ∧
    (∀ e : Nat, 0 < e →
      (env Sink.lcd = WriteOutcome.openFail e ∨
        env Sink.lcd = WriteOutcome.writeFail e) →
      (set_light_backlight state env).2 = -(e : Int) ∧
        (set_light_backlight state env).2 < 0) ∧
    (env Sink.buttons = WriteOutcome.ok → (set_light_buttons state env).2 = 0) ∧
    (∀ e : Nat, 0 < e →
      (env Sink.buttons = WriteOutcome.openFail e ∨
        env Sink.buttons = WriteOutcome.writeFail e) →
      (set_light_buttons state env).2 = -(e : Int) ∧
        (set_light_buttons state env).2 < 0) := by
  refine ⟨fun h => ?_, fun e he h => ?_, fun h => ?_, fun e he h => ?_⟩
  · simp [set_light_backlight, write_int_ret, h]
  · rcases h with h | h <;>
      · constructor
        · simp [set_light_backlight, write_int_ret, h]
        · simp [set_light_backlight, write_int_ret, h]
          omega
  · simp [set_light_buttons, write_int_ret, h]
  · rcases h with h | h <;>
      · constructor
        · simp [set_light_buttons, write_int_ret, h]
        · simp [set_light_buttons, write_int_ret, h]
          omega

/-- Witness for C10: with every open failing with errno 13, the
backlight call returns -13; with every write succeeding, it
returns 0. -/
theorem C10_backlight_buttons_propagate_witness :
    (set_light_backlight ⟨0, 0, 0, 0, 0⟩ (fun _ => WriteOutcome.ok)).2 = 0 ∧
    (set_light_backlight ⟨0, 0, 0, 0, 0⟩
        (fun _ => WriteOutcome.openFail 13)).2 = -13 ∧
    (set_light_buttons ⟨0, 0, 0, 0, 0⟩
        (fun _ => WriteOutcome.writeFail 7)).2 = -7 := by
  refine ⟨?_, ?_, ?_⟩
  · exact (C10_backlight_buttons_propagate ⟨0, 0, 0, 0, 0⟩
      (fun _ => WriteOutcome.ok)).1 rfl
  · exact ((C10_backlight_buttons_propagate ⟨0, 0, 0, 0, 0⟩
      (fun _ => WriteOutcome.openFail 13)).2.1 13 (by decide) (Or.inl rfl)).1
  · exact ((C10_backlight_buttons_propagate ⟨0, 0, 0, 0, 0⟩
      (fun _ => WriteOutcome.writeFail 7)).2.2.2 7 (by decide) (Or.inr rfl)).1

end Lights
